import Mathlib

/-!
Verification development for the goopy library core: the link-to-identifier
resolver (`BaseService._extract_id`, `BaseService._get_file_id` in
`goopy/BaseGoogleServiceAPI.py`) and the spreadsheet column codec
(`SheetsService.__get_column_name`, `SheetsService.__get_column_names` in
`src/SheetServiceAPI.py`), shallowly embedded in Lean 4.
-/

namespace Goopy

/-! ## Identifier resolver

The Python resolver tries three regular expressions in order and returns
capture group 2 of the first that matches:

1. `/(spreadsheets|presentation)/d/([a-zA-Z0-9-_]+)`
2. `/drive/(folders|d)/([a-zA-Z0-9-_]+)`
3. `(id)=([a-zA-Z0-9_-]+)`

Each pattern is a literal context followed by a nonempty greedy run of
identifier characters, with nothing after the run; `re.search` therefore
returns, at the leftmost position where some alternative's literal context
matches and is followed by at least one identifier character, the maximal
identifier-character run after that context.  We embed each regex as its
list of literal context strings (alternatives in the regex's order) and a
scan over start positions. -/

/-- The character class `[a-zA-Z0-9-_]` of the resolver's capture groups
(the third regex writes it `[a-zA-Z0-9_-]`, the same set). -/
def idChar (c : Char) : Bool :=
  ('a' ≤ c && c ≤ 'z') || ('A' ≤ c && c ≤ 'Z') || ('0' ≤ c && c ≤ '9')
    || c == '-' || c == '_'

/-- Try each literal alternative at the current position: the alternative's
characters must be a prefix of `s` and be followed by at least one `idChar`;
the capture is the maximal `idChar` run after the literal. Backtracking over
alternatives at a fixed position mirrors the regex engine (for these regexes
at most one alternative can match at a given position anyway). -/
def matchAltAt : List (List Char) → List Char → Option String
  | [], _ => none
  | p :: ps, s =>
    if p.isPrefixOf s then
      let run := (s.drop p.length).takeWhile idChar
      if run.isEmpty then matchAltAt ps s else some (String.mk run)
    else matchAltAt ps s

/-- `re.search`: scan start positions left to right, first full match wins. -/
def reSearch (alts : List (List Char)) : List Char → Option String
  | [] => matchAltAt alts []
  | c :: rest =>
    match matchAltAt alts (c :: rest) with
    | some r => some r
    | none => reSearch alts rest

/-- Alternatives of regex 1, `/(spreadsheets|presentation)/d/([a-zA-Z0-9-_]+)`. -/
def sheetPats : List (List Char) :=
  [String.toList "/spreadsheets/d/", String.toList "/presentation/d/"]

/-- Alternatives of regex 2, `/drive/(folders|d)/([a-zA-Z0-9-_]+)`. -/
def drivePats : List (List Char) :=
  [String.toList "/drive/folders/", String.toList "/drive/d/"]

/-- The single alternative of regex 3, `(id)=([a-zA-Z0-9_-]+)`; group 2 is
the run after the literal `id=`. -/
def idPats : List (List Char) :=
  [String.toList "id="]

/-- `BaseService._extract_id`: try the three regexes in order, return group 2
of the first match, else raise `ValueError("Invalid Google link")`.  The
`match if match else ...` chain of the source is the two `if ... isSome`
steps here. -/
def extract_id (link : String) : Except String String :=
  let m1 := reSearch sheetPats link.toList
  let m2 := if m1.isSome then m1 else reSearch drivePats link.toList
  let m3 := if m2.isSome then m2 else reSearch idPats link.toList
  match m3 with
  | some i => Except.ok i
  | none => Except.error "Invalid Google link"

/-- Python truthiness of an optional string argument: `None` and `""` are
falsy, every other string is truthy. -/
def strTruthy : Option String → Bool
  | none => false
  | some s => !s.isEmpty

/-- `BaseService._get_file_id(file_link=None, file_id=None)`:
`if not file_id: (if not file_link: raise ValueError(...); file_id =
self._extract_id(file_link)); return file_id`. -/
def get_file_id (file_link file_id : Option String) : Except String String :=
  if !(strTruthy file_id) then
    if !(strTruthy file_link) then
      Except.error "Either file_link or file_id must be provided."
    else
      extract_id (file_link.getD "")
  else
    Except.ok (file_id.getD "")

/-- The link/id resolution step inlined in the `DriveService` public
methods `copy_file`, `get_folder_files`, `download_file` and
`download_folder` (`goopy/DriveServiceAPI.py`):
`if not id: id = self._extract_id(link)`.  Unlike
`BaseService._get_file_id` there is no both-arguments-absent check:
with a falsy id and `link = None`, `_extract_id(None)` reaches
`re.search(pattern, None)`, which raises
`TypeError: expected string or bytes-like object`. -/
def drive_resolve_id (link file_id : Option String) : Except String String :=
  if !(strTruthy file_id) then
    match link with
    | none => Except.error "TypeError: expected string or bytes-like object"
    | some l => extract_id l
  else
    Except.ok (file_id.getD "")

/-! ## Column codec -/

/-- One iteration bound of the loop of `SheetsService.__get_column_name`:
`while idx > 0: letter_index = (idx - 1) % 26; result += chr(letter_index +
ord('A')); idx = (idx - 1) // 26`.  `result` accumulates letters
least-significant first.  For `idx >= 1` the Python floored `%` and `//`
agree with Lean's Euclidean `%` and `/` on `Int` (nonnegative dividend,
positive divisor).  The `fuel` argument only bounds the number of
iterations so that the recursion is structural (and hence kernel-
evaluable); since each iteration strictly decreases `idx.toNat`, any
`fuel ≥ idx.toNat` gives the exact behavior of the unbounded `while` loop
(`columnNameFuel_congr` below). -/
def columnNameFuel : Nat → Int → List Char → List Char
  | 0, _, result => result
  | fuel + 1, idx, result =>
    if 0 < idx then
      columnNameFuel fuel ((idx - 1) / 26)
        (result ++ [Char.ofNat (((idx - 1) % 26).toNat + 65)])
    else result

/-- The loop of `SheetsService.__get_column_name`, run with sufficient
fuel. -/
def columnNameGo (idx : Int) (result : List Char) : List Char :=
  columnNameFuel idx.toNat idx result

/-- `SheetsService.__get_column_name(idx)`: run the loop, then return
`result[::-1]`. -/
def get_column_name (idx : Int) : String :=
  String.mk (columnNameGo idx []).reverse

/-- `SheetsService.__get_column_names(columns_num)`:
`for i in range(1, columns_num + 1): output.append(self.__get_column_name(i))`.
`range(1, k + 1)` enumerates `1, ..., k` and is empty when `k <= 0`. -/
def get_column_names (columns_num : Int) : List String :=
  (List.range columns_num.toNat).map
    (fun i : Nat => get_column_name ((i : Int) + 1))

/-- Modelled from the spec: `labelToIndex` (the inverse conversion) has no
implementation in the source; per the spec it is the inverse of
`indexToLabel`, fails with `InvalidLabelError` on empty input or characters
outside `A`-`Z`, and otherwise decodes the bijective base-26 numeral
(`A`=1 ... `Z`=26). -/
def labelToIndex (label : String) : Except String Int :=
  if label.toList.isEmpty then
    Except.error "InvalidLabelError"
  else if label.toList.all (fun c => decide ('A' ≤ c) && decide (c ≤ 'Z')) then
    Except.ok (label.toList.foldl (fun acc c => acc * 26 + ((c.toNat : Int) - 64)) 0)
  else
    Except.error "InvalidLabelError"

/-- Substring test, used to state whether an error payload carries the
input. -/
def listHasInfix (pat : List Char) : List Char → Bool
  | [] => pat.isEmpty
  | c :: rest => pat.isPrefixOf (c :: rest) || listHasInfix pat rest

instance : DecidableEq (Except String String) := fun a b =>
  match a, b with
  | Except.ok x, Except.ok y =>
    if h : x = y then isTrue (by rw [h]) else isFalse (by simp [h])
  | Except.error x, Except.error y =>
    if h : x = y then isTrue (by rw [h]) else isFalse (by simp [h])
  | Except.ok _, Except.error _ => isFalse (by simp)
  | Except.error _, Except.ok _ => isFalse (by simp)

/-! ## Helper lemmas for the column codec -/

lemma letterFacts : ∀ r : Nat, r < 26 →
    (Char.ofNat (r + 65)).toNat = r + 65 ∧
    'A' ≤ Char.ofNat (r + 65) ∧ Char.ofNat (r + 65) ≤ 'Z' := by decide

lemma toList_mk (l : List Char) : (String.mk l).toList = l := rfl

lemma columnNameGo_toNat_lt {idx : Int} (h : 0 < idx) :
    ((idx - 1) / 26).toNat < idx.toNat := by
  have hle : (idx - 1) / 26 ≤ idx - 1 := Int.ediv_le_self 26 (by omega)
  omega

lemma columnNameFuel_congr : ∀ (f1 f2 : Nat) (idx : Int) (acc : List Char),
    idx.toNat ≤ f1 → idx.toNat ≤ f2 →
    columnNameFuel f1 idx acc = columnNameFuel f2 idx acc := by
  intro f1
  induction f1 with
  | zero =>
    intro f2 idx acc h1 h2
    have hnp : ¬ 0 < idx := by omega
    cases f2 with
    | zero => rfl
    | succ m => simp only [columnNameFuel, if_neg hnp]
  | succ n ih =>
    intro f2 idx acc h1 h2
    by_cases hpos : 0 < idx
    · have hlt : ((idx - 1) / 26).toNat < idx.toNat := columnNameGo_toNat_lt hpos
      cases f2 with
      | zero => omega
      | succ m =>
        simp only [columnNameFuel, if_pos hpos]
        exact ih m _ _ (by omega) (by omega)
    · cases f2 with
      | zero => simp only [columnNameFuel, if_neg hpos]
      | succ m => simp only [columnNameFuel, if_neg hpos]

lemma columnNameGo_pos {idx : Int} (h : 0 < idx) (acc : List Char) :
    columnNameGo idx acc =
      columnNameGo ((idx - 1) / 26)
        (acc ++ [Char.ofNat (((idx - 1) % 26).toNat + 65)]) := by
  unfold columnNameGo
  obtain ⟨k, hk⟩ : ∃ k, idx.toNat = k + 1 := ⟨idx.toNat - 1, by omega⟩
  rw [hk]
  simp only [columnNameFuel, if_pos h]
  exact columnNameFuel_congr k _ _ _
    (by have := columnNameGo_toNat_lt h; omega) le_rfl

lemma columnNameGo_nonpos {idx : Int} (h : ¬ 0 < idx) (acc : List Char) :
    columnNameGo idx acc = acc := by
  unfold columnNameGo
  have h0 : idx.toNat = 0 := by omega
  rw [h0]
  rfl

lemma columnNameGo_append (n : Nat) : ∀ idx : Int, idx.toNat = n →
    ∀ acc : List Char, columnNameGo idx acc = acc ++ columnNameGo idx [] := by
  induction n using Nat.strong_induction_on with
  | _ n ih =>
    intro idx hn acc
    by_cases hpos : 0 < idx
    · have hlt : ((idx - 1) / 26).toNat < n := hn ▸ columnNameGo_toNat_lt hpos
      rw [columnNameGo_pos hpos acc, columnNameGo_pos hpos []]
      rw [ih _ hlt _ rfl (acc ++ [Char.ofNat (((idx - 1) % 26).toNat + 65)]),
        ih _ hlt _ rfl ([] ++ [Char.ofNat (((idx - 1) % 26).toNat + 65)])]
      simp
    · rw [columnNameGo_nonpos hpos acc, columnNameGo_nonpos hpos []]
      simp

lemma columnNameGo_ne_nil {idx : Int} (h : 0 < idx) :
    columnNameGo idx [] ≠ [] := by
  rw [columnNameGo_pos h []]
  rw [columnNameGo_append ((idx - 1) / 26).toNat _ rfl]
  simp

lemma columnNameGo_val (n : Nat) : ∀ idx : Int, 0 ≤ idx → idx.toNat = n →
    List.foldr (fun c a => a * 26 + ((c.toNat : Int) - 64)) 0
      (columnNameGo idx []) = idx ∧
    ∀ c ∈ columnNameGo idx [], 'A' ≤ c ∧ c ≤ 'Z' := by
  induction n using Nat.strong_induction_on with
  | _ n ih =>
    intro idx h0 hn
    by_cases hpos : 0 < idx
    · have hlt : ((idx - 1) / 26).toNat < n := hn ▸ columnNameGo_toNat_lt hpos
      have hm0 : (0 : Int) ≤ (idx - 1) / 26 := by
        have : (0 : Int) ≤ idx - 1 := by omega
        exact Int.ediv_nonneg this (by omega)
      have hihyp := ih _ hlt ((idx - 1) / 26) hm0 rfl
      have hr : ((idx - 1) % 26).toNat < 26 := by omega
      have hlf := letterFacts _ hr
      rw [columnNameGo_pos hpos []]
      rw [columnNameGo_append ((idx - 1) / 26).toNat _ rfl]
      constructor
      · simp only [List.nil_append, List.singleton_append, List.foldr_cons]
        rw [hihyp.1, hlf.1]
        omega
      · intro c hc
        simp only [List.nil_append, List.singleton_append, List.mem_cons] at hc
        rcases hc with hc | hc
        · rw [hc]; exact ⟨hlf.2.1, hlf.2.2⟩
        · exact hihyp.2 c hc
    · have : idx = 0 := by omega
      subst this
      rw [columnNameGo_nonpos hpos []]
      simp

lemma get_column_name_ne_empty {idx : Int} (h : 1 ≤ idx) :
    get_column_name idx ≠ "" := by
  unfold get_column_name
  intro hcontra
  have hdata : (columnNameGo idx []).reverse = [] := by
    have := congrArg String.toList hcontra
    rw [toList_mk] at this
    simpa using this
  have hnil : columnNameGo idx [] = [] := by simpa using hdata
  exact columnNameGo_ne_nil (by omega) hnil

lemma labelToIndex_get_column_name {n : Int} (h : 1 ≤ n) :
    labelToIndex (get_column_name n) = Except.ok n := by
  have hv := columnNameGo_val n.toNat n (by omega) rfl
  have hne : columnNameGo n [] ≠ [] := columnNameGo_ne_nil (by omega)
  unfold labelToIndex get_column_name
  rw [toList_mk]
  rw [if_neg (by simp [List.isEmpty_iff, hne])]
  rw [if_pos]
  · rw [List.foldl_reverse, hv.1]
  · simp only [List.all_eq_true, List.mem_reverse, Bool.and_eq_true,
      decide_eq_true_eq]
    exact fun c hc => hv.2 c hc

/-! ## Claim theorems -/

/-- Claim C1: the three matchers are consulted in the fixed order
spreadsheets/presentation path, drive folders/d path, `id=` query parameter,
and the first successful match determines the result; in particular a link
matched by both the spreadsheet-shape matcher and the `id=` matcher resolves
to the spreadsheet-shape capture. -/
theorem extract_id_priority (link : String) :
    (∀ i, reSearch sheetPats link.toList = some i →
      extract_id link = Except.ok i) ∧
    (reSearch sheetPats link.toList = none →
      ∀ i, reSearch drivePats link.toList = some i →
        extract_id link = Except.ok i) ∧
    (reSearch sheetPats link.toList = none →
      reSearch drivePats link.toList = none →
        ∀ i, reSearch idPats link.toList = some i →
          extract_id link = Except.ok i) := by
  refine ⟨fun i h => ?_, fun h1 i h => ?_, fun h1 h2 i h => ?_⟩
  · have h' : reSearch sheetPats link.data = some i := h
    simp [extract_id, h']
  · have h1' : reSearch sheetPats link.data = none := h1
    have h' : reSearch drivePats link.data = some i := h
    simp [extract_id, h1', h']
  · have h1' : reSearch sheetPats link.data = none := h1
    have h2' : reSearch drivePats link.data = none := h2
    have h' : reSearch idPats link.data = some i := h
    simp [extract_id, h1', h2', h']

/-- Witness for C1 at a link matched by both the spreadsheet matcher and the
`id=` matcher: the spreadsheet capture wins. -/
theorem extract_id_priority_witness :
    reSearch sheetPats
      ("https://docs.google.com/spreadsheets/d/SHEET123?id=OTHER456").toList
      = some "SHEET123" ∧
    reSearch idPats
      ("https://docs.google.com/spreadsheets/d/SHEET123?id=OTHER456").toList
      = some "OTHER456" ∧
    extract_id "https://docs.google.com/spreadsheets/d/SHEET123?id=OTHER456"
      = Except.ok "SHEET123" :=
  ⟨by decide, by decide,
    (extract_id_priority
      "https://docs.google.com/spreadsheets/d/SHEET123?id=OTHER456").1
      "SHEET123" (by decide)⟩

/-- Claim C2: boundary cases of the bijective base-26 index-to-label
conversion. -/
theorem get_column_name_boundary_cases :
    get_column_name 1 = "A" ∧ get_column_name 26 = "Z" ∧
    get_column_name 27 = "AA" ∧ get_column_name 52 = "AZ" ∧
    get_column_name 702 = "ZZ" ∧ get_column_name 703 = "AAA" := by
  refine ⟨by decide, by decide, by decide, by decide, by decide, by decide⟩

/-- Claim C3: round-trip law: for every integer `n` in `[1, 10000]`,
`labelToIndex (indexToLabel n) = n` (the source's `__get_column_name` is
`indexToLabel`; `labelToIndex` is modelled from the spec). -/
theorem get_column_name_roundtrip (n : Int) (h1 : 1 ≤ n) (h2 : n ≤ 10000) :
    labelToIndex (get_column_name n) = Except.ok n :=
  labelToIndex_get_column_name h1

/-- Witness for C3 at `n = 10000`. -/
theorem get_column_name_roundtrip_witness :
    labelToIndex (get_column_name 10000) = Except.ok 10000 :=
  get_column_name_roundtrip 10000 (by decide) (by decide)

/-- Claim C4: the resolver maps the three literal example links to the
identifiers embedded in them, exactly as they appear. -/
theorem extract_id_literal_cases :
    extract_id "https://docs.google.com/spreadsheets/d/1A2b3C4d/edit"
      = Except.ok "1A2b3C4d" ∧
    extract_id "https://drive.google.com/drive/folders/XyZ_9-8"
      = Except.ok "XyZ_9-8" ∧
    extract_id "https://example.com/open?id=abc-123_XYZ"
      = Except.ok "abc-123_XYZ" := by
  refine ⟨by decide, by decide, by decide⟩

/-- Counterexample to claim C5 as stated: at the claim's own example input
the resolver fails, but the error payload is the fixed string
`"Invalid Google link"`, which does not carry (contain) the original input
string. -/
theorem extract_id_payload_not_input :
    extract_id "https://example.com/no-match-here"
      = Except.error "Invalid Google link" ∧
    listHasInfix ("https://example.com/no-match-here").toList
      ("Invalid Google link").toList = false := by
  refine ⟨by decide, by decide⟩

/-- Claim C5 (amended): on every input on which none of the three matchers
succeeds, the resolver fails with an error whose payload is the fixed
string `"Invalid Google link"` (it does not carry the original input), and
never returns an identifier. -/
theorem extract_id_failure_fixed_payload (link : String)
    (h1 : reSearch sheetPats link.toList = none)
    (h2 : reSearch drivePats link.toList = none)
    (h3 : reSearch idPats link.toList = none) :
    extract_id link = Except.error "Invalid Google link" := by
  have h1' : reSearch sheetPats link.data = none := h1
  have h2' : reSearch drivePats link.data = none := h2
  have h3' : reSearch idPats link.data = none := h3
  simp [extract_id, h1', h2', h3']

/-- Witness for amended C5 at the spec's no-match example and at a
shared-drive link with extra path segments before `folders`. -/
theorem extract_id_failure_fixed_payload_witness :
    extract_id "https://example.com/no-match-here"
      = Except.error "Invalid Google link" ∧
    extract_id "https://drive.google.com/drive/u/0/folders/ABC123"
      = Except.error "Invalid Google link" :=
  ⟨extract_id_failure_fixed_payload "https://example.com/no-match-here"
      (by decide) (by decide) (by decide),
    extract_id_failure_fixed_payload
      "https://drive.google.com/drive/u/0/folders/ABC123"
      (by decide) (by decide) (by decide)⟩

/-- Counterexample to claim C6 as stated: at the non-positive indices `0`
and `-7` the conversion does not fail; it returns the empty string. -/
theorem get_column_name_zero_empty :
    get_column_name 0 = "" ∧ get_column_name (-7) = "" := by
  refine ⟨by decide, by decide⟩

/-- Claim C6 (amended): for every integer index `<= 0` the index-to-label
conversion returns the empty string rather than failing; it returns a
non-empty label exactly under the precondition `index >= 1`. -/
theorem get_column_name_nonpositive (idx : Int) :
    (idx ≤ 0 → get_column_name idx = "") ∧
    (1 ≤ idx → get_column_name idx ≠ "") := by
  constructor
  · intro h
    unfold get_column_name
    rw [columnNameGo_nonpos (by omega)]
    rfl
  · exact fun h => get_column_name_ne_empty h

/-- Witness for amended C6 at `idx = 0` and `idx = 1`. -/
theorem get_column_name_nonpositive_witness :
    get_column_name 0 = "" ∧ get_column_name 1 ≠ "" :=
  ⟨(get_column_name_nonpositive 0).1 (by decide),
    (get_column_name_nonpositive 1).2 (by decide)⟩

/-- Counterexample to claim C7 as stated: at the claim's own example input
`-1` the batch generation does not fail with `InvalidIndexError`; it
returns the empty list. -/
theorem get_column_names_negative_nil :
    get_column_names (-1) = [] := by decide

/-- Claim C7 (amended): for every integer `count`, `labelsForCount` returns
exactly the labels `indexToLabel 1, ..., indexToLabel count` in increasing
index order; for every `count <= 0` — including every negative `count` —
it returns the empty list rather than failing. -/
theorem get_column_names_spec (count : Int) :
    (get_column_names count).length = count.toNat ∧
    (∀ k : Nat, k < count.toNat →
      (get_column_names count)[k]? = some (get_column_name ((k : Int) + 1))) ∧
    (count ≤ 0 → get_column_names count = []) := by
  refine ⟨?_, fun k hk => ?_, fun h => ?_⟩
  · simp only [get_column_names, List.length_map, List.length_range]
  · simp only [get_column_names, List.getElem?_map]
    rw [List.getElem?_range hk]
    rfl
  · rw [get_column_names, Int.toNat_of_nonpos h]
    rfl

/-- Witness for amended C7 at `count = 3` (with `k = 1`) and `count = -1`. -/
theorem get_column_names_spec_witness :
    (get_column_names 3).length = (3 : Int).toNat ∧
    (get_column_names 3)[1]? = some (get_column_name (((1 : Nat) : Int) + 1)) ∧
    get_column_names (-1) = [] ∧
    get_column_names 3 = ["A", "B", "C"] :=
  ⟨(get_column_names_spec 3).1,
    (get_column_names_spec 3).2.1 1 (by decide),
    (get_column_names_spec (-1)).2.2 (by decide),
    by decide⟩

/-- Claim C8: for every positive index the produced label is a non-empty
string over the alphabet `A`-`Z`, and the mapping is injective on positive
indices. -/
theorem get_column_name_bijective_invariants :
    (∀ n : Int, 1 ≤ n → get_column_name n ≠ "" ∧
      ∀ c ∈ (get_column_name n).toList, 'A' ≤ c ∧ c ≤ 'Z') ∧
    (∀ m n : Int, 1 ≤ m → 1 ≤ n →
      get_column_name m = get_column_name n → m = n) := by
  constructor
  · intro n hn
    refine ⟨get_column_name_ne_empty hn, fun c hc => ?_⟩
    have hv := columnNameGo_val n.toNat n (by omega) rfl
    unfold get_column_name at hc
    rw [toList_mk, List.mem_reverse] at hc
    exact hv.2 c hc
  · intro m n hm hn heq
    have h1 := labelToIndex_get_column_name hm
    have h2 := labelToIndex_get_column_name hn
    rw [heq, h2] at h1
    exact (Except.ok.inj h1).symm

/-- Witness for C8 at index `28` (label `"AB"`). -/
theorem get_column_name_bijective_invariants_witness :
    (get_column_name 28 ≠ "" ∧
      ∀ c ∈ (get_column_name 28).toList, 'A' ≤ c ∧ c ≤ 'Z') ∧
    (28 : Int) = 28 :=
  ⟨get_column_name_bijective_invariants.1 28 (by decide),
    get_column_name_bijective_invariants.2 28 28 (by decide) (by decide) rfl⟩

/-- Claim C9: an input that is not a well-formed spreadsheet- or
drive-shaped link but contains `id=` as the tail of the longer parameter
name `uid=` is accepted: the resolver returns the run of allowed characters
after that `id=`. -/
theorem extract_id_loose_id_match :
    reSearch sheetPats ("https://example.com/fetch?uid=abc-123").toList
      = none ∧
    reSearch drivePats ("https://example.com/fetch?uid=abc-123").toList
      = none ∧
    extract_id "https://example.com/fetch?uid=abc-123"
      = Except.ok "abc-123" := by
  refine ⟨by decide, by decide, by decide⟩

/-- Counterexample to claim C10 as stated: the link/id precedence of
`_get_file_id` does not govern every public service method.  The
`DriveService` methods inline `if not id: id = self._extract_id(link)`,
so with both arguments absent they fail with a `TypeError` from
`re.search(pattern, None)`, not with the helper's `ValueError`. -/
theorem drive_resolve_id_diverges :
    drive_resolve_id none none
      = Except.error "TypeError: expected string or bytes-like object" ∧
    get_file_id none none
      = Except.error "Either file_link or file_id must be provided." ∧
    drive_resolve_id none none ≠ get_file_id none none := by
  refine ⟨rfl, rfl, by decide⟩

/-- Claim C10 (amended): the file-id resolution helper `_get_file_id`
returns a truthy (non-empty) `file_id` unchanged for every value of
`file_link`; fails with a `ValueError` when both arguments are falsy; and
otherwise delegates to the resolver on `file_link`.  This precedence
governs the public service methods that delegate to the helper (the
`SheetsService` methods), but not the `DriveService` public methods, which
inline the resolution without the both-absent check: they also return a
truthy id unchanged and otherwise delegate to the resolver on a supplied
link, but with both arguments absent they fail with a `TypeError` instead
of the helper's `ValueError`. -/
theorem get_file_id_precedence :
    (∀ (fl : Option String) (s : String), s ≠ "" →
      get_file_id fl (some s) = Except.ok s) ∧
    (∀ fl fid : Option String, strTruthy fl = false → strTruthy fid = false →
      get_file_id fl fid
        = Except.error "Either file_link or file_id must be provided.") ∧
    (∀ (fid : Option String) (l : String), strTruthy fid = false → l ≠ "" →
      get_file_id (some l) fid = extract_id l) ∧
    (∀ (fl : Option String) (s : String), s ≠ "" →
      drive_resolve_id fl (some s) = Except.ok s) ∧
    (∀ (fid : Option String) (l : String), strTruthy fid = false →
      drive_resolve_id (some l) fid = extract_id l) ∧
    (∀ fid : Option String, strTruthy fid = false →
      drive_resolve_id none fid
        = Except.error "TypeError: expected string or bytes-like object") := by
  refine ⟨fun fl s h => ?_, fun fl fid h1 h2 => ?_, fun fid l h1 h2 => ?_,
    fun fl s h => ?_, fun fid l h1 => ?_, fun fid h1 => ?_⟩
  · have hne : s.isEmpty = false := by
      cases hs : s.isEmpty
      · rfl
      · exact absurd ((String.isEmpty_iff s).mp hs) h
    have ht : strTruthy (some s) = true := by simp [strTruthy, hne]
    simp [get_file_id, ht]
  · simp [get_file_id, h1, h2]
  · have hne : l.isEmpty = false := by
      cases hs : l.isEmpty
      · rfl
      · exact absurd ((String.isEmpty_iff l).mp hs) h2
    have ht : strTruthy (some l) = true := by simp [strTruthy, hne]
    simp [get_file_id, h1, ht]
  · have hne : s.isEmpty = false := by
      cases hs : s.isEmpty
      · rfl
      · exact absurd ((String.isEmpty_iff s).mp hs) h
    have ht : strTruthy (some s) = true := by simp [strTruthy, hne]
    simp [drive_resolve_id, ht]
  · simp [drive_resolve_id, h1]
  · simp [drive_resolve_id, h1]

/-- Witness for amended C10: a truthy `file_id` wins over a provided link
in both the helper and the drive inlined pattern; two falsy arguments fail
with the helper's `ValueError`; an empty id with a truthy link delegates to
the resolver in both; both arguments absent give the drive `TypeError`. -/
theorem get_file_id_precedence_witness :
    get_file_id (some "https://example.com/open?id=Q") (some "XYZ")
      = Except.ok "XYZ" ∧
    get_file_id none (some "")
      = Except.error "Either file_link or file_id must be provided." ∧
    get_file_id (some "https://example.com/open?id=Q") (some "")
      = extract_id "https://example.com/open?id=Q" ∧
    drive_resolve_id (some "https://example.com/open?id=Q") (some "XYZ")
      = Except.ok "XYZ" ∧
    drive_resolve_id (some "https://example.com/open?id=Q") (some "")
      = extract_id "https://example.com/open?id=Q" ∧
    drive_resolve_id none none
      = Except.error "TypeError: expected string or bytes-like object" :=
  ⟨get_file_id_precedence.1 (some "https://example.com/open?id=Q") "XYZ"
      (by decide),
    get_file_id_precedence.2.1 none (some "") (by decide) (by decide),
    get_file_id_precedence.2.2.1 (some "") "https://example.com/open?id=Q"
      (by decide) (by decide),
    get_file_id_precedence.2.2.2.1 (some "https://example.com/open?id=Q")
      "XYZ" (by decide),
    get_file_id_precedence.2.2.2.2.1 (some "")
      "https://example.com/open?id=Q" (by decide),
    get_file_id_precedence.2.2.2.2.2 none (by decide)⟩

end Goopy
